import Mathlib

/-!
# gitrs — shallow embedding of `src/core.rs`

The repository is a thin wrapper that spawns the external `git` program and
converts the OS-level completion status into a two-variant outcome
(`Result<Success, Failure>`).  We embed the data model and the two run modes
(`Git::run`, captured; `Git::stream`, streamed) as pure Lean functions
parameterised by an oracle describing what the operating system does for a
given spawned command.  Launch failure (`.expect("Failed to execute git")`
panicking) is modelled by the oracle answering `none`, in which case the
embedded function returns `none` (no outcome value is produced — the Rust
code aborts the calling process there).

Raw byte buffers (`Vec<u8>`) are abstracted by their attempted UTF-8
decoding: a `Bytes` value carries `utf8? = some s` exactly when the bytes
are valid UTF-8 reading as `s`, and `none` otherwise; `String::from_utf8`
then embeds as projecting that field.
-/

namespace Gitrs

/-- Embeds `std::process::ExitStatus`: the OS reports an overall success flag
(`status.success()`) and an optional numeric exit code (`status.code()`,
which is `None` e.g. when the process was killed by a signal). -/
structure ExitStatus where
  success : Bool
  exitCode : Option Int
deriving Repr, DecidableEq

/-- A raw byte buffer (`Vec<u8>`), abstracted by its attempted UTF-8
decoding: `utf8? = some s` iff the bytes are valid UTF-8 decoding to `s`. -/
structure Bytes where
  utf8? : Option String
deriving Repr, DecidableEq

/-- Embeds `String::from_utf8(bytes)`: `Ok s` when the bytes are valid UTF-8,
`Err` otherwise — embedded as the `Option` the `Bytes` abstraction carries. -/
def from_utf8 (b : Bytes) : Option String := b.utf8?

/-- Embeds `std::process::Output`, as returned by `Command::output()`: the exit
status plus the captured stdout and stderr byte buffers. -/
structure ProcOutput where
  status : ExitStatus
  stdout : Bytes
  stderr : Bytes
deriving Repr, DecidableEq

/-- A `std::process::Command` being built: the program name given to
`Command::new` plus the arguments added with `Command::arg`. -/
structure Command where
  program : String
  args : List String
deriving Repr, DecidableEq

/-- Embeds `Command::new(p)`: a command for program `p` with no arguments yet. -/
def Command.new (p : String) : Command := ⟨p, []⟩

/-- Embeds `Command::arg(a)`: appends one argument. -/
def Command.arg (c : Command) (a : String) : Command :=
  ⟨c.program, c.args ++ [a]⟩

/-- OS oracle for `Command::status()` (streamed mode): `some st` when the
child was launched and terminated with status `st`, `none` when the spawn
itself failed (in the Rust code, `.expect` then aborts the caller). -/
def StatusOS : Type := Command → Option ExitStatus

/-- OS oracle for `Command::output()` (captured mode): `some out` when the
child was launched, terminated, and its streams were drained into `out`;
`none` when the spawn itself failed. -/
def OutputOS : Type := Command → Option ProcOutput

/-- Embeds the `Success` struct: successful command execution.  `stderr` is not
provided; `stdout` is optional since in streamed mode it is piped to the
parent instead of captured. -/
structure Success where
  stdout : Option String
  code : Int
deriving Repr, DecidableEq

/-- Embeds the `Failure` struct: failed command execution, with optional captured
`stderr` and `stdout`. -/
structure Failure where
  stderr : Option String
  stdout : Option String
  code : Int
deriving Repr, DecidableEq

/-- Embeds `Result<Success, Failure>`: `Except.ok` is Rust's `Ok(Success)`,
`Except.error` is `Err(Failure)`. -/
abbrev Outcome : Type := Except Failure Success

namespace IsFailure

/-- Embeds `IsFailure::failed` for `Result<Success, Failure>`: `self.is_err()`. -/
def failed : Outcome → Bool
  | Except.ok _ => false
  | Except.error _ => true

/-- Embeds `IsFailure::code`: the exit code from either variant. -/
def code : Outcome → Int
  | Except.ok success => success.code
  | Except.error failure => failure.code

/-- Embeds `IsFailure::stdout`: the optional captured stdout from either variant. -/
def stdout : Outcome → Option String
  | Except.ok success => success.stdout
  | Except.error failure => failure.stdout

/-- Embeds `IsFailure::stderr`: `None` for `Ok`, the failure's stderr for `Err`. -/
def stderr : Outcome → Option String
  | Except.ok _ => none
  | Except.error failure => failure.stderr

end IsFailure

/-- Embeds the `Git` struct: holds the stored argument list. -/
structure Git where
  command : List String
deriving Repr, DecidableEq

/-- Embeds `Git::new(items)`: collects `items.into_iter().map(|x| x.to_string())`.
The generic `T: IntoIterator, T::Item: ToString` is embedded as a `List α`
with `[ToString α]`. -/
def Git.new {α : Type} [ToString α] (items : List α) : Git :=
  ⟨items.map toString⟩

/-- The `Command` built by both run modes: `Command::new("git")` followed by
`out.arg(argument)` for each stored argument in order. -/
def Git.build (g : Git) : Command :=
  g.command.foldl Command.arg (Command.new "git")

/-- Embeds `Git::stream`: builds the command, runs `out.status()` (output streams
inherited from the parent).  On spawn failure (`os _ = none`) the Rust code
panics via `.expect`, so no outcome is produced (`none`).  Otherwise returns
`Ok(Success { stdout: None, code: status.code().unwrap_or(0) })` when the
status reports success, else
`Err(Failure { stderr: None, stdout: None, code: status.code().unwrap_or(1) })`. -/
def Git.stream (g : Git) (os : StatusOS) : Option Outcome :=
  match os g.build with
  | none => none
  | some output =>
    if output.success then
      some (Except.ok { stdout := none, code := output.exitCode.getD 0 })
    else
      some (Except.error { stderr := none, stdout := none,
                           code := output.exitCode.getD 1 })

/-- Embeds `Git::run`: builds the command, runs `out.output()` (streams captured).
On spawn failure the Rust code panics via `.expect`, so no outcome is
produced (`none`).  Otherwise returns
`Ok(Success { stdout: Some(from_utf8(stdout).unwrap_or("")), code: code().unwrap_or(0) })`
on success, else
`Err(Failure)` with both streams decoded the same way and default code 1. -/
def Git.run (g : Git) (os : OutputOS) : Option Outcome :=
  match os g.build with
  | none => none
  | some output =>
    if output.status.success then
      some (Except.ok
        { stdout := some ((from_utf8 output.stdout).getD "")
          code := output.status.exitCode.getD 0 })
    else
      some (Except.error
        { stderr := some ((from_utf8 output.stderr).getD "")
          stdout := some ((from_utf8 output.stdout).getD "")
          code := output.status.exitCode.getD 1 })

namespace Run

/-- Blanket `impl<T> Run for T` method `run`:
`Git::new(self.into_iter().map(|x| x.to_string())).run()`. -/
def run {α : Type} [ToString α] (xs : List α) (os : OutputOS) : Option Outcome :=
  (Git.new (xs.map toString)).run os

/-- Blanket `impl<T> Run for T` method `stream`:
`Git::new(self.into_iter().map(|x| x.to_string())).stream()`. -/
def stream {α : Type} [ToString α] (xs : List α) (os : StatusOS) : Option Outcome :=
  (Git.new (xs.map toString)).stream os

end Run

/-- Helper for `splitTokens`: walks the character list, accumulating the
current (reversed) token and emitting it at each whitespace boundary. -/
def tokenizeAux : List Char → List Char → List String
  | [], cur => if cur.isEmpty then [] else [String.mk cur.reverse]
  | c :: cs, cur =>
    if c.isWhitespace then
      if cur.isEmpty then tokenizeAux cs []
      else String.mk cur.reverse :: tokenizeAux cs []
    else tokenizeAux cs (c :: cur)

/-- Modelled from the spec: the string form of entry-point B is not in
`src/` (the blanket `impl<T> Run for T` there does not cover plain strings;
the revision that runs a single string lives outside `src/`).  Per the spec
("when given a single string, the contract is to split it on whitespace
into tokens before invocation"), this splits a string into its
whitespace-delimited tokens. -/
def splitTokens (s : String) : List String :=
  tokenizeAux s.data []

/-- Modelled from the spec: entry-point B on a single string — split on
whitespace into tokens, then invoke exactly as the token-list entry point
does in captured mode. -/
def runString (s : String) (os : OutputOS) : Option Outcome :=
  Run.run (splitTokens s) os

/-! ## Helper lemmas -/

/-- Mapping `to_string` over strings is the identity (Rust's `ToString` for
`String` clones the string; Lean's `toString` on `String` is likewise the
identity). -/
theorem map_toString_self (l : List String) :
    l.map (toString : String → String) = l := by
  induction l with
  | nil => rfl
  | cons a t ih => exact congrArg (List.cons a) ih

/-- On a list that is already strings, `Git::new` stores it unchanged. -/
theorem Git.new_strings (l : List String) : Git.new l = Git.mk l := by
  show Git.mk (l.map toString) = Git.mk l
  rw [map_toString_self]

/-- When the spawn fails, `Git::stream` produces no outcome. -/
theorem Git.stream_of_launch_fail (g : Git) (os : StatusOS)
    (h : os g.build = none) : g.stream os = none := by
  unfold Git.stream
  rw [h]

/-- When the spawn fails, `Git::run` produces no outcome. -/
theorem Git.run_of_launch_fail (g : Git) (os : OutputOS)
    (h : os g.build = none) : g.run os = none := by
  unfold Git.run
  rw [h]

/-- Characterisation of `Git::stream` when the child ran to completion. -/
theorem Git.stream_eq (g : Git) (os : StatusOS) (st : ExitStatus)
    (h : os g.build = some st) :
    g.stream os = some (if st.success then
        Except.ok ⟨none, st.exitCode.getD 0⟩
      else Except.error ⟨none, none, st.exitCode.getD 1⟩) := by
  unfold Git.stream
  rw [h]
  cases hb : st.success <;> simp [hb]

/-- Characterisation of `Git::run` when the child ran to completion. -/
theorem Git.run_eq (g : Git) (os : OutputOS) (out : ProcOutput)
    (h : os g.build = some out) :
    g.run os = some (if out.status.success then
        Except.ok ⟨some ((from_utf8 out.stdout).getD ""),
          out.status.exitCode.getD 0⟩
      else Except.error ⟨some ((from_utf8 out.stderr).getD ""),
        some ((from_utf8 out.stdout).getD ""), out.status.exitCode.getD 1⟩) := by
  unfold Git.run
  rw [h]
  cases hb : out.status.success <;> simp [hb]

/-- Accessor values of the outcome of `Git::run` after a completed child. -/
theorem Git.run_accessors (g : Git) (os : OutputOS) (out : ProcOutput)
    (h : os g.build = some out) :
    ∃ r, g.run os = some r ∧
      IsFailure.stdout r = some ((from_utf8 out.stdout).getD "") ∧
      IsFailure.stderr r = (if out.status.success then none
        else some ((from_utf8 out.stderr).getD "")) ∧
      IsFailure.code r = (if out.status.success then out.status.exitCode.getD 0
        else out.status.exitCode.getD 1) ∧
      IsFailure.failed r = !out.status.success := by
  refine ⟨_, Git.run_eq g os out h, ?_, ?_, ?_, ?_⟩ <;>
    cases hb : out.status.success <;>
      simp [hb, IsFailure.stdout, IsFailure.stderr, IsFailure.code,
            IsFailure.failed]

/-! ## Claims -/

/-- Claim C1: for every argument list and OS behaviour, whenever
`Git::stream` returns an outcome, neither captured standard-output text
nor standard-error text is populated — the stdout accessor and the stderr
accessor both give `none`, whichever variant resulted and whatever the
exit status. -/
theorem stream_never_captures (g : Git) (os : StatusOS) (r : Outcome)
    (h : g.stream os = some r) :
    IsFailure.stdout r = none ∧ IsFailure.stderr r = none := by
  cases hos : os g.build with
  | none =>
    rw [Git.stream_of_launch_fail g os hos] at h
    exact Option.noConfusion h
  | some st =>
    rw [Git.stream_eq g os st hos] at h
    injection h with h
    subst h
    cases hb : st.success <;>
      simp [hb, IsFailure.stdout, IsFailure.stderr]

/-- Witness for C1 at a concrete successful status. -/
theorem stream_never_captures_witness :
    IsFailure.stdout (Except.ok ⟨none, 0⟩ : Outcome) = none ∧
    IsFailure.stderr (Except.ok ⟨none, 0⟩ : Outcome) = none :=
  stream_never_captures (Git.new (["log"] : List String))
    (fun _ => some ⟨true, some 0⟩) (Except.ok ⟨none, 0⟩) rfl

/-- Claim C2: entry-point B on a single whitespace-delimited string splits
it on whitespace into tokens and produces the same outcome as entry-point A
(`Git::new` on the pre-split token list, then `run`); in particular
"log --shortstat" splits to ["log", "--shortstat"]. -/
theorem runString_equiv_pre_split (s : String) (os : OutputOS) :
    runString s os = (Git.new (splitTokens s)).run os ∧
    splitTokens "log --shortstat" = ["log", "--shortstat"] := by
  constructor
  · unfold runString Run.run
    rw [Git.new_strings, Git.new_strings, map_toString_self]
  · decide

/-- Claim C3: whenever `Git::run` returns an outcome, the captured text
fields are populated: a Success carries `Some` stdout text, and a Failure
carries `Some` stdout and `Some` stderr text. -/
theorem run_always_captures (g : Git) (os : OutputOS) (r : Outcome)
    (h : g.run os = some r) :
    (∃ t, IsFailure.stdout r = some t) ∧
    (IsFailure.failed r = true → ∃ t, IsFailure.stderr r = some t) := by
  cases hos : os g.build with
  | none =>
    rw [Git.run_of_launch_fail g os hos] at h
    exact Option.noConfusion h
  | some out =>
    rw [Git.run_eq g os out hos] at h
    injection h with h
    subst h
    cases hb : out.status.success <;>
      simp [hb, IsFailure.stdout, IsFailure.stderr, IsFailure.failed]

/-- Witness for C3 at a concrete failing output. -/
theorem run_always_captures_witness :
    (∃ t, IsFailure.stdout (Except.error ⟨some "e", some "o", 2⟩ : Outcome)
      = some t) ∧
    (IsFailure.failed (Except.error ⟨some "e", some "o", 2⟩ : Outcome) = true →
      ∃ t, IsFailure.stderr (Except.error ⟨some "e", some "o", 2⟩ : Outcome)
        = some t) :=
  run_always_captures (Git.new (["bad"] : List String))
    (fun _ => some ⟨⟨false, some 2⟩, ⟨some "o"⟩, ⟨some "e"⟩⟩)
    (Except.error ⟨some "e", some "o", 2⟩) rfl

/-- Claim C4: a Success outcome never carries standard-error text under
either mode: the stderr accessor returns `none` for every Success outcome
produced by `Git::run` or `Git::stream`. -/
theorem success_no_stderr (g : Git) (oos : OutputOS) (sos : StatusOS)
    (r : Outcome) (s : Success)
    (h : g.run oos = some r ∨ g.stream sos = some r)
    (hr : r = Except.ok s) :
    IsFailure.stderr r = none := by
  subst hr
  rfl

/-- Witness for C4 at a concrete Success outcome from streamed mode. -/
theorem success_no_stderr_witness :
    IsFailure.stderr (Except.ok ⟨none, 0⟩ : Outcome) = none :=
  success_no_stderr (Git.new (["status"] : List String))
    (fun _ => some ⟨⟨true, some 0⟩, ⟨some ""⟩, ⟨some ""⟩⟩)
    (fun _ => some ⟨true, some 0⟩)
    (Except.ok ⟨none, 0⟩) ⟨none, 0⟩ (Or.inr rfl) rfl

/-- Claim C5: in both modes the outcome's exit code equals the external
program's reported code verbatim when one is available, and otherwise the
fixed default 0 on reported success and 1 on reported failure. -/
theorem exit_code_policy (g : Git) (sos : StatusOS) (oos : OutputOS)
    (st : ExitStatus) (out : ProcOutput)
    (hs : sos g.build = some st) (ho : oos g.build = some out) :
    (∃ r, g.stream sos = some r ∧
      IsFailure.code r = match st.exitCode with
        | some c => c
        | none => if st.success then 0 else 1) ∧
    (∃ r, g.run oos = some r ∧
      IsFailure.code r = match out.status.exitCode with
        | some c => c
        | none => if out.status.success then 0 else 1) := by
  constructor
  · refine ⟨_, Git.stream_eq g sos st hs, ?_⟩
    cases hc : st.exitCode <;> cases hb : st.success <;>
      simp [hc, hb, IsFailure.code]
  · refine ⟨_, Git.run_eq g oos out ho, ?_⟩
    cases hc : out.status.exitCode <;> cases hb : out.status.success <;>
      simp [hc, hb, IsFailure.code]

/-- Witness for C5: streamed success killed before reporting a code gives
code 0; captured failure with reported code 128 gives code 128. -/
theorem exit_code_policy_witness :
    (∃ r, (Git.new ([] : List String)).stream (fun _ => some ⟨true, none⟩)
      = some r ∧ IsFailure.code r = 0) ∧
    (∃ r, (Git.new ([] : List String)).run
        (fun _ => some ⟨⟨false, some 128⟩, ⟨some ""⟩, ⟨none⟩⟩)
      = some r ∧ IsFailure.code r = 128) :=
  exit_code_policy (Git.new ([] : List String)) (fun _ => some ⟨true, none⟩)
    (fun _ => some ⟨⟨false, some 128⟩, ⟨some ""⟩, ⟨none⟩⟩)
    ⟨true, none⟩ ⟨⟨false, some 128⟩, ⟨some ""⟩, ⟨none⟩⟩ rfl rfl

/-- Claim C6: when the external program cannot be launched at all, neither
mode returns any Outcome value (the Rust code aborts the calling process
via the panic in `.expect`, modelled as `none`). -/
theorem launch_failure_no_outcome (g : Git) (sos : StatusOS) (oos : OutputOS)
    (hs : sos g.build = none) (ho : oos g.build = none) :
    g.stream sos = none ∧ g.run oos = none :=
  ⟨Git.stream_of_launch_fail g sos hs, Git.run_of_launch_fail g oos ho⟩

/-- Witness for C6 with oracles on which every spawn fails. -/
theorem launch_failure_no_outcome_witness :
    (Git.new (["log"] : List String)).stream (fun _ => none) = none ∧
    (Git.new (["log"] : List String)).run (fun _ => none) = none :=
  launch_failure_no_outcome (Git.new (["log"] : List String))
    (fun _ => none) (fun _ => none) rfl rfl

/-- Claim C7: in captured mode a stream whose bytes are not valid text is
replaced by the empty string, while the exit code and the other stream are
computed exactly as usual (each depends only on its own part of the child's
output); the whole operation still returns an outcome. -/
theorem decode_failure_recovered (g : Git) (os : OutputOS) (out : ProcOutput)
    (h : os g.build = some out) :
    ∃ r, g.run os = some r ∧
      (from_utf8 out.stdout = none → IsFailure.stdout r = some "") ∧
      (from_utf8 out.stderr = none → IsFailure.failed r = true →
        IsFailure.stderr r = some "") ∧
      (IsFailure.code r = match out.status.exitCode with
        | some c => c
        | none => if out.status.success then 0 else 1) ∧
      (∀ t, from_utf8 out.stdout = some t → IsFailure.stdout r = some t) ∧
      (∀ t, from_utf8 out.stderr = some t → IsFailure.failed r = true →
        IsFailure.stderr r = some t) := by
  obtain ⟨r, h1, h2, h3, h4, h5⟩ := Git.run_accessors g os out h
  refine ⟨r, h1, ?_, ?_, ?_, ?_, ?_⟩
  · intro hd
    rw [h2, hd]
    rfl
  · intro hd hf
    rw [h5] at hf
    simp only [Bool.not_eq_eq_eq_not, Bool.not_true] at hf
    rw [h3]
    simp [hf, hd]
  · rw [h4]
    cases hc : out.status.exitCode <;> cases hb : out.status.success <;>
      simp [hc, hb]
  · intro t ht
    rw [h2, ht]
    rfl
  · intro t ht hf
    rw [h5] at hf
    simp only [Bool.not_eq_eq_eq_not, Bool.not_true] at hf
    rw [h3]
    simp [hf, ht]

/-- Witness for C7: a failing child whose stdout bytes are invalid text and
whose stderr decodes to "boom". -/
theorem decode_failure_recovered_witness :
    ∃ r, (Git.new (["x"] : List String)).run
        (fun _ => some ⟨⟨false, some 3⟩, ⟨none⟩, ⟨some "boom"⟩⟩) = some r ∧
      (from_utf8 ⟨none⟩ = none → IsFailure.stdout r = some "") ∧
      (from_utf8 ⟨some "boom"⟩ = none → IsFailure.failed r = true →
        IsFailure.stderr r = some "") ∧
      (IsFailure.code r = 3) ∧
      (∀ t, from_utf8 ⟨none⟩ = some t → IsFailure.stdout r = some t) ∧
      (∀ t, from_utf8 ⟨some "boom"⟩ = some t → IsFailure.failed r = true →
        IsFailure.stderr r = some t) :=
  decode_failure_recovered (Git.new (["x"] : List String))
    (fun _ => some ⟨⟨false, some 3⟩, ⟨none⟩, ⟨some "boom"⟩⟩)
    ⟨⟨false, some 3⟩, ⟨none⟩, ⟨some "boom"⟩⟩ rfl

/-- Claim C8: the `failed` accessor returns true exactly on the Failure
variant. -/
theorem failed_iff_failure_variant (r : Outcome) :
    IsFailure.failed r = true ↔ ∃ f, r = Except.error f := by
  cases r with
  | ok s => simp [IsFailure.failed]
  | error f => simp [IsFailure.failed]

/-- Claim C9: `Git::new` is a total function (construction cannot fail) and
stores the string forms of the caller-supplied arguments verbatim and in
order — nothing is validated, reordered or dropped, as the stored command
is exactly the element-wise string conversion of the input. -/
theorem new_stores_verbatim {α : Type} [ToString α] (items : List α) :
    (Git.new items).command = items.map toString ∧
    (Git.new items).command.length = items.length :=
  ⟨rfl, by simp [Git.new]⟩

/-- Claim C10: the direct-run blanket entry point coincides with the
two-step construct-then-run path, in both modes. -/
theorem direct_run_equiv {α : Type} [ToString α] (xs : List α)
    (oos : OutputOS) (sos : StatusOS) :
    Run.run xs oos = (Git.new xs).run oos ∧
    Run.stream xs sos = (Git.new xs).stream sos := by
  constructor
  · unfold Run.run
    rw [Git.new_strings]
    rfl
  · unfold Run.stream
    rw [Git.new_strings]
    rfl

end Gitrs
